import Mathlib

/-!
Verification development for the inventory-tracking application: a shallow
embedding of the stock-aggregation subsystem (catalog, inventory aggregate
rows, stock-movement ledger, route handlers, and the three storage
implementations shipped in the repository) together with theorems settling
the specified properties.

Numbers: quantities, deltas, unit costs and minimum stock levels are
embedded as `Int` (the columns are SQL integers / JS numbers used
integrally); timestamps are milliseconds-since-epoch embedded as `Int`.
JS `x || 0` on an optional numeric field is embedded as `Option.getD x 0`
(`0` is falsy in JS, so both encodings send absent and `0` to `0`).
-/

namespace Inventory

/-- The three stock statuses (`StockStatus` constants in the shared schema:
the strings "In Stock", "Low Stock", "Out of Stock"). -/
inductive StockStatus where
  | inStock
  | lowStock
  | outOfStock
deriving DecidableEq, Repr

/-- Classification performed per product by `prepareChartData` in the
dashboard category chart: `stockQuantity === 0` gives Out of Stock,
otherwise `stockQuantity <= minStockLevel` gives Low Stock, otherwise In
Stock; the code reads `product.stockQuantity || 0` and
`product.minStockLevel || 0`, so absent fields default to `0`. -/
def prepareChartDataClassify (stockQuantity minStockLevel : Option Int) : StockStatus :=
  let q := stockQuantity.getD 0
  let m := minStockLevel.getD 0
  if q = 0 then .outOfStock
  else if q ≤ m then .lowStock
  else .inStock

/-- The `stockStatus` query filter of the GET /api/inventory route: an item
matches "In Stock" when `quantity > minLevel`, "Low Stock" when
`quantity > 0 && quantity <= minLevel`, "Out of Stock" when
`quantity === 0`, where `minLevel = item.minStockLevel || 0`. -/
def inventoryRouteStatusFilter (stockStatus : StockStatus) (quantity : Int)
    (minStockLevel : Option Int) : Bool :=
  let minLevel := minStockLevel.getD 0
  match stockStatus with
  | .inStock => decide (minLevel < quantity)
  | .lowStock => decide (0 < quantity) && decide (quantity ≤ minLevel)
  | .outOfStock => decide (quantity = 0)

/-- Modelled from the spec: `computeStockStatus(quantity, minStockLevel)`
with `quantity <= 0` giving OutOfStock, `0 < quantity <= minStockLevel`
giving LowStock, and InStock otherwise.  Used as the comparison point for
the claim that the classification sites implement this single rule. -/
def specComputeStockStatus (quantity minStockLevel : Int) : StockStatus :=
  if quantity ≤ 0 then .outOfStock
  else if quantity ≤ minStockLevel then .lowStock
  else .inStock

/-- Row of the categories table (shared schema). -/
structure Category where
  id : Nat
  name : String
  description : Option String
deriving DecidableEq, Repr

/-- Row of the locations table (shared schema). -/
structure Location where
  id : Nat
  name : String
  description : Option String
deriving DecidableEq, Repr

/-- Row of the products table (shared schema); `createdAt`/`updatedAt`
are dropped as no claim mentions them. -/
structure Product where
  id : Nat
  name : String
  sku : String
  description : Option String
  categoryId : Nat
  unitCost : Int
  minStockLevel : Int
deriving DecidableEq, Repr

/-- Row of the inventory (aggregate) table: one row per
(productId, locationId) pair holding the current quantity. -/
structure InventoryRow where
  id : Nat
  productId : Nat
  locationId : Nat
  quantity : Int
  updatedAt : Int
deriving DecidableEq, Repr

/-- Row of the stock_movements (ledger) table: a signed quantity delta. -/
structure StockMovement where
  id : Nat
  productId : Nat
  locationId : Nat
  quantity : Int
  note : Option String
  timestamp : Int
deriving DecidableEq, Repr

/-- The logical table contents shared by the storage implementations,
plus the id counters (MemStorage counters / SQL serial columns) and the
current clock `now` used for fresh timestamps.  Lists hold rows in
insertion order (JS Map iteration order / SQL insertion order). -/
structure StoreState where
  categories : List Category
  locations : List Location
  products : List Product
  inventory : List InventoryRow
  stockMovements : List StockMovement
  nextCategoryId : Nat
  nextLocationId : Nat
  nextProductId : Nat
  nextInventoryId : Nat
  nextStockMovementId : Nat
  now : Int
deriving DecidableEq, Repr

/-- `getProduct(id)`: first product row with the given id. -/
def getProduct (s : StoreState) (id : Nat) : Option Product :=
  s.products.find? (fun p => p.id == id)

/-- `getProductBySku(sku)`. -/
def getProductBySku (s : StoreState) (sku : String) : Option Product :=
  s.products.find? (fun p => p.sku == sku)

/-- `getCategory(id)`. -/
def getCategory (s : StoreState) (id : Nat) : Option Category :=
  s.categories.find? (fun c => c.id == id)

/-- `getCategoryByName(name)`. -/
def getCategoryByName (s : StoreState) (name : String) : Option Category :=
  s.categories.find? (fun c => c.name == name)

/-- `getLocation(id)`. -/
def getLocation (s : StoreState) (id : Nat) : Option Location :=
  s.locations.find? (fun l => l.id == id)

/-- `getLocationByName(name)`. -/
def getLocationByName (s : StoreState) (name : String) : Option Location :=
  s.locations.find? (fun l => l.name == name)

/-- `getInventoryItem(id)`. -/
def getInventoryItem (s : StoreState) (id : Nat) : Option InventoryRow :=
  s.inventory.find? (fun i => i.id == id)

/-- `getInventoryByProductAndLocation(productId, locationId)`. -/
def getInventoryByProductAndLocation (s : StoreState) (productId locationId : Nat) :
    Option InventoryRow :=
  s.inventory.find? (fun i => i.productId == productId && i.locationId == locationId)

/-- `createCategory`: inserts a fresh row (serial id / Mem counter). -/
def createCategory (s : StoreState) (name : String) (description : Option String) :
    Category × StoreState :=
  let c : Category := ⟨s.nextCategoryId, name, description⟩
  (c, { s with categories := s.categories ++ [c], nextCategoryId := s.nextCategoryId + 1 })

/-- `createLocation`: inserts a fresh row. -/
def createLocation (s : StoreState) (name : String) (description : Option String) :
    Location × StoreState :=
  let l : Location := ⟨s.nextLocationId, name, description⟩
  (l, { s with locations := s.locations ++ [l], nextLocationId := s.nextLocationId + 1 })

/-- `createProduct`: inserts a fresh row. -/
def createProduct (s : StoreState) (name sku : String) (description : Option String)
    (categoryId : Nat) (unitCost minStockLevel : Int) : Product × StoreState :=
  let p : Product := ⟨s.nextProductId, name, sku, description, categoryId, unitCost, minStockLevel⟩
  (p, { s with products := s.products ++ [p], nextProductId := s.nextProductId + 1 })

/-- `createInventoryItem`: inserts a fresh aggregate row with
`updatedAt = now`. -/
def createInventoryItem (s : StoreState) (productId locationId : Nat) (quantity : Int) :
    InventoryRow × StoreState :=
  let item : InventoryRow := ⟨s.nextInventoryId, productId, locationId, quantity, s.now⟩
  (item, { s with inventory := s.inventory ++ [item], nextInventoryId := s.nextInventoryId + 1 })

/-- A partial inventory update body (`insertInventorySchema.partial()`):
fields absent from the request are `none`. -/
structure InventoryUpdate where
  productId : Option Nat
  locationId : Option Nat
  quantity : Option Int
deriving DecidableEq, Repr

/-- The merge `{ ...item, ...updateData, updatedAt: now }` performed by
`updateInventoryItem` in both storage implementations. -/
def applyInventoryUpdate (item : InventoryRow) (u : InventoryUpdate) (now : Int) : InventoryRow :=
  { item with
    productId := u.productId.getD item.productId
    locationId := u.locationId.getD item.locationId
    quantity := u.quantity.getD item.quantity
    updatedAt := now }

/-- `updateInventoryItem(id, data)`: updates the row with the given id in
place (returning `none` and leaving the table unchanged when absent). -/
def updateInventoryItem (s : StoreState) (id : Nat) (u : InventoryUpdate) :
    Option InventoryRow × StoreState :=
  match getInventoryItem s id with
  | none => (none, s)
  | some item =>
    let item2 := applyInventoryUpdate item u s.now
    (some item2,
      { s with inventory := s.inventory.map (fun r => if r.id == id then item2 else r) })

/-- `deleteInventoryItem(id)`: removes the row with the given id. -/
def deleteInventoryItem (s : StoreState) (id : Nat) : StoreState :=
  { s with inventory := s.inventory.filter (fun r => r.id != id) }

/-- `DatabaseStorage.createStockMovement` (src/server/storage.ts, also the
part_008 variant): inserts the ledger row with `timestamp = now` and
returns it.  It does not touch the inventory table. -/
def dbCreateStockMovement (s : StoreState) (productId locationId : Nat) (quantity : Int)
    (note : Option String) : StockMovement × StoreState :=
  let m : StockMovement := ⟨s.nextStockMovementId, productId, locationId, quantity, note, s.now⟩
  (m, { s with stockMovements := s.stockMovements ++ [m],
               nextStockMovementId := s.nextStockMovementId + 1 })

/-- `MemStorage.createStockMovement` (part_009): stores the ledger row,
then additionally applies the delta to the aggregate: if a row exists for
the pair its quantity is incremented by the movement quantity; otherwise a
new row is created, but only when the movement quantity is positive. -/
def memCreateStockMovement (s : StoreState) (productId locationId : Nat) (quantity : Int)
    (note : Option String) : StockMovement × StoreState :=
  let m : StockMovement := ⟨s.nextStockMovementId, productId, locationId, quantity, note, s.now⟩
  let s1 : StoreState :=
    { s with stockMovements := s.stockMovements ++ [m],
             nextStockMovementId := s.nextStockMovementId + 1 }
  match getInventoryByProductAndLocation s1 productId locationId with
  | some item =>
    (m, (updateInventoryItem s1 item.id ⟨none, none, some (item.quantity + quantity)⟩).2)
  | none =>
    if 0 < quantity then (m, (createInventoryItem s1 productId locationId quantity).2)
    else (m, s1)

/-- The type of a `createStockMovement` implementation; the route handlers
are written once and instantiated with the database-backed and the
map-backed implementation. -/
abbrev Csm := StoreState → Nat → Nat → Int → Option String → StockMovement × StoreState

/-- Outcome of a route handler. -/
inductive ApiResult where
  | created
  | ok
  | noContent
  | badRequest (msg : String)
  | notFound (msg : String)
deriving DecidableEq, Repr

/-- POST /api/inventory: validates that product and location exist, fails
when an aggregate row already exists for the pair, otherwise creates the
row and records a movement with note "Initial inventory".  An absent
request quantity defaults to 0 (`inventoryData.quantity ?? 0`; the table
default for the inserted row is also 0). -/
def postInventory (csm : Csm) (s : StoreState) (productId locationId : Nat)
    (quantity? : Option Int) : ApiResult × StoreState :=
  match getProduct s productId with
  | none => (.badRequest "Product does not exist", s)
  | some _ =>
    match getLocation s locationId with
    | none => (.badRequest "Location does not exist", s)
    | some _ =>
      match getInventoryByProductAndLocation s productId locationId with
      | some _ =>
        (.badRequest "Inventory already exists for this product and location. Use PUT to update.", s)
      | none =>
        let q := quantity?.getD 0
        let s1 := (createInventoryItem s productId locationId q).2
        let s2 := (csm s1 productId locationId q (some "Initial inventory")).2
        (.created, s2)

/-- PUT /api/inventory/:id: 404 when the row is absent; duplicate-pair
check when the product or location is being changed (JS truthiness of the
requested id is `!= 0`); merges the update; when the quantity field is
present and differs from the old quantity, records a movement carrying the
difference with note "Inventory adjustment". -/
def putInventory (csm : Csm) (s : StoreState) (id : Nat) (u : InventoryUpdate) :
    ApiResult × StoreState :=
  match getInventoryItem s id with
  | none => (.notFound "Inventory item not found", s)
  | some existing =>
    let pidChanged := match u.productId with
      | some p => p != 0 && p != existing.productId
      | none => false
    let lidChanged := match u.locationId with
      | some l => l != 0 && l != existing.locationId
      | none => false
    let pid := match u.productId with
      | some p => if p != 0 then p else existing.productId
      | none => existing.productId
    let lid := match u.locationId with
      | some l => if l != 0 then l else existing.locationId
      | none => existing.locationId
    let dup := getInventoryByProductAndLocation s pid lid
    if (pidChanged || lidChanged) &&
        (match dup with | some d => d.id != id | none => false) then
      (.badRequest "Inventory already exists for this product and location", s)
    else
      let oldQuantity := existing.quantity
      let newQuantity := u.quantity.getD oldQuantity
      match updateInventoryItem s id u with
      | (none, s1) => (.ok, s1)
      | (some inv, s1) =>
        match u.quantity with
        | some q =>
          if q != oldQuantity then
            let s2 := (csm s1 inv.productId inv.locationId (newQuantity - oldQuantity)
              (some "Inventory adjustment")).2
            (.ok, s2)
          else (.ok, s1)
        | none => (.ok, s1)

/-- DELETE /api/inventory/:id: 404 when absent; records a compensating
movement of `-quantity` with note "Inventory removed", then deletes the
aggregate row. -/
def deleteInventoryRoute (csm : Csm) (s : StoreState) (id : Nat) : ApiResult × StoreState :=
  match getInventoryItem s id with
  | none => (.notFound "Inventory item not found", s)
  | some inv =>
    let s1 := (csm s inv.productId inv.locationId (-inv.quantity) (some "Inventory removed")).2
    let s2 := deleteInventoryItem s1 id
    (.noContent, s2)

/-- POST /api/stock-movements: validates that product and location exist,
then calls the storage createStockMovement. -/
def postStockMovement (csm : Csm) (s : StoreState) (productId locationId : Nat)
    (quantity : Int) (note : Option String) : ApiResult × StoreState :=
  match getProduct s productId with
  | none => (.badRequest "Product does not exist", s)
  | some _ =>
    match getLocation s locationId with
    | none => (.badRequest "Location does not exist", s)
    | some _ =>
      let s1 := (csm s productId locationId quantity note).2
      (.created, s1)

/-- The inventory routes instantiated with the database-backed storage
(src/server/storage.ts, the module the router imports). -/
def dbPostInventory := postInventory dbCreateStockMovement
/-- PUT /api/inventory/:id against the database-backed storage. -/
def dbPutInventory := putInventory dbCreateStockMovement
/-- DELETE /api/inventory/:id against the database-backed storage. -/
def dbDeleteInventoryRoute := deleteInventoryRoute dbCreateStockMovement
/-- POST /api/stock-movements against the database-backed storage. -/
def dbPostStockMovement := postStockMovement dbCreateStockMovement
/-- POST /api/inventory against the map-backed MemStorage. -/
def memPostInventory := postInventory memCreateStockMovement
/-- PUT /api/inventory/:id against the map-backed MemStorage. -/
def memPutInventory := putInventory memCreateStockMovement
/-- DELETE /api/inventory/:id against the map-backed MemStorage. -/
def memDeleteInventoryRoute := deleteInventoryRoute memCreateStockMovement
/-- POST /api/stock-movements against the map-backed MemStorage. -/
def memPostStockMovement := postStockMovement memCreateStockMovement

/-- An input row of the products bulk import (POST /api/import,
type "products").  Fields are the raw values the zod schema inspects;
rows whose fields have the wrong runtime type also fail the schema and
behave like rows failing the predicates below. -/
structure RawProductRow where
  name : String
  sku : String
  description : Option String
  categoryName : String
  unitCost : Int
  minStockLevel : Int
deriving DecidableEq, Repr

/-- The products-import zod schema: nonempty name, sku and categoryName,
positive unitCost, positive integer minStockLevel. -/
def productRowValid (r : RawProductRow) : Bool :=
  decide (1 ≤ r.name.length) && decide (1 ≤ r.sku.length) &&
  decide (1 ≤ r.categoryName.length) &&
  decide (0 < r.unitCost) && decide (0 < r.minStockLevel)

/-- One iteration of the products import loop: a row failing the schema is
skipped with `continue` (no counter is touched); a duplicate sku counts as
an error; otherwise the category is resolved or created (empty
description) and the product created, counting as imported. -/
def importProductRow (s : StoreState) (counts : Nat × Nat) (r : RawProductRow) :
    StoreState × Nat × Nat :=
  if !productRowValid r then (s, counts)
  else
    match getProductBySku s r.sku with
    | some _ => (s, counts.1, counts.2 + 1)
    | none =>
      let (cat, s1) := match getCategoryByName s r.categoryName with
        | some c => (c, s)
        | none => createCategory s r.categoryName (some "")
      let s2 := (createProduct s1 r.name r.sku (some (r.description.getD "")) cat.id
        r.unitCost r.minStockLevel).2
      (s2, counts.1 + 1, counts.2)

/-- POST /api/import with type "products": folds the rows through
`importProductRow`, returning the final state with
(importCount, errorCount). -/
def importProducts (s : StoreState) (rows : List RawProductRow) : StoreState × Nat × Nat :=
  rows.foldl (fun acc r => importProductRow acc.1 acc.2 r) (s, 0, 0)

/-- An input row of the inventory bulk import (type "inventory"). -/
structure RawInventoryRow where
  sku : String
  locationName : String
  quantity : Int
deriving DecidableEq, Repr

/-- The inventory-import zod schema: nonempty sku and locationName,
nonnegative integer quantity. -/
def inventoryRowValid (r : RawInventoryRow) : Bool :=
  decide (1 ≤ r.sku.length) && decide (1 ≤ r.locationName.length) &&
  decide (0 ≤ r.quantity)

/-- One iteration of the inventory import loop: schema failure or unknown
sku counts as an error; the location is resolved or created; an existing
aggregate row is set to the absolute quantity with a movement for the
nonzero difference ("Imported inventory adjustment"); an absent row is
created, with a movement only for a positive quantity
("Imported inventory"); either way the row counts as imported. -/
def importInventoryRow (csm : Csm) (s : StoreState) (counts : Nat × Nat)
    (r : RawInventoryRow) : StoreState × Nat × Nat :=
  if !inventoryRowValid r then (s, counts.1, counts.2 + 1)
  else
    match getProductBySku s r.sku with
    | none => (s, counts.1, counts.2 + 1)
    | some product =>
      let (loc, s1) := match getLocationByName s r.locationName with
        | some l => (l, s)
        | none => createLocation s r.locationName (some "")
      match getInventoryByProductAndLocation s1 product.id loc.id with
      | some existing =>
        let s2 := (updateInventoryItem s1 existing.id ⟨none, none, some r.quantity⟩).2
        let diff := r.quantity - existing.quantity
        let s3 := if diff != 0 then
            (csm s2 product.id loc.id diff (some "Imported inventory adjustment")).2
          else s2
        (s3, counts.1 + 1, counts.2)
      | none =>
        let s2 := (createInventoryItem s1 product.id loc.id r.quantity).2
        let s3 := if 0 < r.quantity then
            (csm s2 product.id loc.id r.quantity (some "Imported inventory")).2
          else s2
        (s3, counts.1 + 1, counts.2)

/-- POST /api/import with type "inventory". -/
def importInventory (csm : Csm) (s : StoreState) (rows : List RawInventoryRow) :
    StoreState × Nat × Nat :=
  rows.foldl (fun acc r => importInventoryRow csm acc.1 acc.2 r) (s, 0, 0)

/-- Inventory import against the database-backed storage. -/
def dbImportInventory := importInventory dbCreateStockMovement
/-- Inventory import against the map-backed MemStorage. -/
def memImportInventory := importInventory memCreateStockMovement

/-- An inventory row joined with product/category/location display fields
(`getInventoryItemsWithDetails` in every storage implementation; the SQL
left joins and the Mem lookups agree: absent references give `none`). -/
structure InventoryWithDetails where
  id : Nat
  productId : Nat
  locationId : Nat
  quantity : Int
  updatedAt : Int
  productName : Option String
  productSku : Option String
  categoryName : Option String
  locationName : Option String
  minStockLevel : Option Int
deriving DecidableEq, Repr

/-- `getInventoryItemsWithDetails()`. -/
def getInventoryItemsWithDetails (s : StoreState) : List InventoryWithDetails :=
  s.inventory.map (fun item =>
    let product := getProduct s item.productId
    let location := getLocation s item.locationId
    let category := product.bind (fun p => getCategory s p.categoryId)
    { id := item.id, productId := item.productId, locationId := item.locationId
      quantity := item.quantity, updatedAt := item.updatedAt
      productName := product.map Product.name, productSku := product.map Product.sku
      categoryName := category.map Category.name, locationName := location.map Location.name
      minStockLevel := product.map Product.minStockLevel })

/-- JS `minStockLevel || 1` in the low-stock sort comparators: an absent
or zero minimum becomes 1. -/
def jsOrOne (m : Option Int) : Int :=
  match m with
  | some v => if v = 0 then 1 else v
  | none => 1

/-- The real-valued criticality ratio `quantity / (minStockLevel || 1)`
the low-stock comparators compute (exact rational arithmetic; all inputs
are integers so the JS comparisons of these ratios are exact). -/
def lowStockRatio (i : InventoryWithDetails) : Rat :=
  (i.quantity : Rat) / (jsOrOne i.minStockLevel : Rat)

/-- The ascending-by-ratio comparator of the low-stock sorts, decided by
cross multiplication with the squared denominators (equivalent to
comparing the ratios, proved in `ratioLe_iff`; the denominators produced
by `jsOrOne` are never zero). -/
def ratioLe (a b : InventoryWithDetails) : Bool :=
  decide (a.quantity * jsOrOne a.minStockLevel *
      (jsOrOne b.minStockLevel * jsOrOne b.minStockLevel) ≤
    b.quantity * jsOrOne b.minStockLevel *
      (jsOrOne a.minStockLevel * jsOrOne a.minStockLevel))

/-- The comparator as a decidable relation, for the sort lemmas. -/
def RatioLeR (a b : InventoryWithDetails) : Prop := ratioLe a b = true

instance : DecidableRel RatioLeR := fun a b => inferInstanceAs (Decidable (ratioLe a b = true))

/-- `DatabaseStorage.getLowStockItems` (src/server/storage.ts): the detail
rows with `quantity <= (minStockLevel || 0)`, in table order — this
variant does not sort. -/
def dbGetLowStockItems (s : StoreState) : List InventoryWithDetails :=
  (getInventoryItemsWithDetails s).filter
    (fun item => decide (item.quantity ≤ item.minStockLevel.getD 0))

/-- `DatabaseStorage.getLowStockItems` (part_008 variant): the detail rows
with `quantity < (minStockLevel || 0)` (strict comparison), sorted
ascending by the criticality ratio (JS `Array.prototype.sort` is a stable
sort; embedded as a stable insertion sort over the comparator). -/
def db8GetLowStockItems (s : StoreState) : List InventoryWithDetails :=
  List.insertionSort RatioLeR
    ((getInventoryItemsWithDetails s).filter
      (fun item => decide (item.quantity < item.minStockLevel.getD 0)))

/-- `MemStorage.getLowStockItems` (part_009): the detail rows whose
product exists and has `quantity <= product.minStockLevel`, sorted
ascending by the criticality ratio. -/
def memGetLowStockItems (s : StoreState) : List InventoryWithDetails :=
  List.insertionSort RatioLeR
    ((getInventoryItemsWithDetails s).filter
      (fun item => match getProduct s item.productId with
        | none => false
        | some p => decide (item.quantity ≤ p.minStockLevel)))

/-- The dashboard stats record: the `stockMovements` field is the
"recent movement count" of the spec. -/
structure DashboardStats where
  totalProducts : Nat
  lowStockItems : Nat
  inventoryValue : Int
  stockMovements : Nat
deriving DecidableEq, Repr

/-- `DatabaseStorage.getDashboardStats` (src/server/storage.ts): one pass
over the detail rows, accumulating `quantity * unitCost` and counting
`quantity <= minStockLevel` for rows whose product exists; the movement
count is the total ledger size. -/
def dbGetDashboardStats (s : StoreState) : DashboardStats :=
  let items := getInventoryItemsWithDetails s
  let folded := items.foldl (fun (acc : Int × Nat) item =>
    match getProduct s item.productId with
    | some p =>
      (acc.1 + item.quantity * p.unitCost,
       acc.2 + if item.quantity ≤ p.minStockLevel then 1 else 0)
    | none => acc) (0, 0)
  { totalProducts := s.products.length
    lowStockItems := folded.2
    inventoryValue := folded.1
    stockMovements := s.stockMovements.length }

/-- `DatabaseStorage.getDashboardStats` (part_008 variant): counts
low-stock rows with the strict `quantity < (minStockLevel || 0)`
comparison, accumulates `unitCost * quantity` for rows whose product
exists; the movement count is the total ledger size. -/
def db8GetDashboardStats (s : StoreState) : DashboardStats :=
  let items := getInventoryItemsWithDetails s
  { totalProducts := s.products.length
    lowStockItems :=
      (items.filter (fun item => decide (item.quantity < item.minStockLevel.getD 0))).length
    inventoryValue := items.foldl (fun acc item =>
      match getProduct s item.productId with
      | some p => acc + p.unitCost * item.quantity
      | none => acc) 0
    stockMovements := s.stockMovements.length }

/-- One week in milliseconds (`oneWeekAgo` in MemStorage). -/
def oneWeekMs : Int := 7 * 24 * 60 * 60 * 1000

/-- `MemStorage.getDashboardStats` (part_009): the low-stock count is the
length of `getLowStockItems()`, the value accumulates
`quantity * unitCost`, and the movement count only covers ledger entries
with `timestamp > now - 7 days`. -/
def memGetDashboardStats (s : StoreState) : DashboardStats :=
  { totalProducts := s.products.length
    lowStockItems := (memGetLowStockItems s).length
    inventoryValue := s.inventory.foldl (fun acc item =>
      match getProduct s item.productId with
      | some p => acc + item.quantity * p.unitCost
      | none => acc) 0
    stockMovements :=
      (s.stockMovements.filter (fun m => decide (s.now - oneWeekMs < m.timestamp))).length }

/-- The total-stock sum of the GET /api/products/:id route: the sum of
the quantities of the aggregate rows for the product. -/
def getProductTotalStock (s : StoreState) (productId : Nat) : Int :=
  (s.inventory.filter (fun i => i.productId == productId)).foldl
    (fun acc i => acc + i.quantity) 0

/-- Sum of all ledger deltas recorded for a (product, location) pair
(the right-hand side of invariant I1). -/
def movementSumFor (s : StoreState) (productId locationId : Nat) : Int :=
  (s.stockMovements.filter
    (fun m => m.productId == productId && m.locationId == locationId)).foldl
    (fun acc m => acc + m.quantity) 0

/-- The exposed mutating API operations, for each shipped storage
implementation (the GET routes do not mutate state). -/
inductive ApiOp where
  | dbPostInv (productId locationId : Nat) (quantity? : Option Int)
  | dbPutInv (id : Nat) (u : InventoryUpdate)
  | dbDeleteInv (id : Nat)
  | dbPostMovement (productId locationId : Nat) (quantity : Int) (note : Option String)
  | importProductRows (rows : List RawProductRow)
  | dbImportInventoryRows (rows : List RawInventoryRow)
  | memPostInv (productId locationId : Nat) (quantity? : Option Int)
  | memPutInv (id : Nat) (u : InventoryUpdate)
  | memDeleteInv (id : Nat)
  | memPostMovement (productId locationId : Nat) (quantity : Int) (note : Option String)
  | memImportInventoryRows (rows : List RawInventoryRow)
deriving Repr

/-- State transition of one exposed API operation. -/
def applyApiOp (op : ApiOp) (s : StoreState) : StoreState :=
  match op with
  | .dbPostInv pid lid q? => (dbPostInventory s pid lid q?).2
  | .dbPutInv id u => (dbPutInventory s id u).2
  | .dbDeleteInv id => (dbDeleteInventoryRoute s id).2
  | .dbPostMovement pid lid q note => (dbPostStockMovement s pid lid q note).2
  | .importProductRows rows => (importProducts s rows).1
  | .dbImportInventoryRows rows => (dbImportInventory s rows).1
  | .memPostInv pid lid q? => (memPostInventory s pid lid q?).2
  | .memPutInv id u => (memPutInventory s id u).2
  | .memDeleteInv id => (memDeleteInventoryRoute s id).2
  | .memPostMovement pid lid q note => (memPostStockMovement s pid lid q note).2
  | .memImportInventoryRows rows => (memImportInventory s rows).1

/-- No inventory row sits exactly at its product minimum (and every row
has a product): on such states the strict and the inclusive low-stock
comparisons agree. -/
def strictBoundaryFree (s : StoreState) : Bool :=
  s.inventory.all (fun i =>
    match getProduct s i.productId with
    | some p => decide (i.quantity ≠ p.minStockLevel)
    | none => false)

/-- Every ledger entry lies within the trailing 7-day window. -/
def allMovementsRecent (s : StoreState) : Bool :=
  s.stockMovements.all (fun m => decide (s.now - oneWeekMs < m.timestamp))

/-- State exhibiting the broken aggregate invariant: product 1 at
location 1 with aggregate quantity 25 seeded by a single +25 movement. -/
def c1State : StoreState :=
  { categories := [⟨1, "General", none⟩]
    locations := [⟨1, "Main", none⟩]
    products := [⟨1, "Widget", "W-1", none, 1, 5, 10⟩]
    inventory := [⟨1, 1, 1, 25, 0⟩]
    stockMovements := [⟨1, 1, 1, 25, some "Initial inventory", 0⟩]
    nextCategoryId := 2, nextLocationId := 2, nextProductId := 2
    nextInventoryId := 2, nextStockMovementId := 2, now := 100 }

/-- Scenario B state: the pair (product 2, location 1) at quantity 8. -/
def c5State : StoreState :=
  { categories := [⟨1, "Electronics", none⟩]
    locations := [⟨1, "Warehouse A", none⟩]
    products := [⟨2, "iPhone 13 Pro", "IP13-PRO-256", none, 1, 999, 15⟩]
    inventory := [⟨1, 2, 1, 8, 0⟩]
    stockMovements := [⟨1, 2, 1, 8, some "Initial inventory", 0⟩]
    nextCategoryId := 2, nextLocationId := 2, nextProductId := 3
    nextInventoryId := 2, nextStockMovementId := 2, now := 100 }

/-- Empty store. -/
def emptyState : StoreState :=
  { categories := [], locations := [], products := [], inventory := []
    stockMovements := []
    nextCategoryId := 1, nextLocationId := 1, nextProductId := 1
    nextInventoryId := 1, nextStockMovementId := 1, now := 0 }

/-- A products-import row failing the zod schema (empty name). -/
def c3BadRow : RawProductRow := ⟨"", "SKU-1", none, "Electronics", 5, 5⟩

/-- State with one inventory row sitting exactly at its product minimum
(quantity 10 = minStockLevel 10) and one ledger entry older than the
7-day window (now = 0). -/
def c2State : StoreState :=
  { categories := [⟨1, "Electronics", none⟩]
    locations := [⟨1, "Warehouse A", none⟩]
    products := [⟨1, "Dell XPS 13 Laptop", "DXPS-13-9380", none, 1, 1200, 10⟩]
    inventory := [⟨1, 1, 1, 10, 0⟩]
    stockMovements := [⟨1, 1, 1, 10, some "Initial stock", -(oneWeekMs + 1000)⟩]
    nextCategoryId := 2, nextLocationId := 2, nextProductId := 2
    nextInventoryId := 2, nextStockMovementId := 2, now := 0 }

/-- State with two low-stock rows stored out of criticality order:
row 1 has ratio 5/5 = 1, row 2 has ratio 1/10 = 0.1. -/
def c6State : StoreState :=
  { categories := [⟨1, "General", none⟩]
    locations := [⟨1, "Main", none⟩]
    products := [⟨1, "A", "SKU-A", none, 1, 1, 5⟩, ⟨2, "B", "SKU-B", none, 1, 1, 10⟩]
    inventory := [⟨1, 1, 1, 5, 0⟩, ⟨2, 2, 1, 1, 0⟩]
    stockMovements := []
    nextCategoryId := 2, nextLocationId := 2, nextProductId := 3
    nextInventoryId := 3, nextStockMovementId := 1, now := 0 }

/-- State on which the two dashboard implementations agree: the single
row sits strictly below its minimum (3 < 10) and the single movement lies
within the 7-day window. -/
def c2WitnessState : StoreState :=
  { categories := [⟨1, "General", none⟩]
    locations := [⟨1, "Main", none⟩]
    products := [⟨1, "A", "SKU-A", none, 1, 10, 10⟩]
    inventory := [⟨1, 1, 1, 3, 0⟩]
    stockMovements := [⟨1, 1, 1, 3, none, 50⟩]
    nextCategoryId := 2, nextLocationId := 2, nextProductId := 2
    nextInventoryId := 2, nextStockMovementId := 2, now := 100 }

/-- The ledger of the second state extends the ledger of the first: every
existing entry is still present, unmodified and in place, and new entries
are only appended at the end. -/
def LedgerExtends (s s2 : StoreState) : Prop :=
  ∃ t, s2.stockMovements = s.stockMovements ++ t

/-- C4 counterexample: the stock-status rule is not a single total
function applied uniformly — at quantity -1 (minStockLevel 10) the spec
rule gives OutOfStock, the chart classification gives LowStock, and the
inventory filter matches the item under none of the three statuses. -/
theorem C4_counterexample :
    prepareChartDataClassify (some (-1)) (some 10) = .lowStock ∧
    specComputeStockStatus (-1) 10 = .outOfStock ∧
    StockStatus.lowStock ≠ StockStatus.outOfStock ∧
    inventoryRouteStatusFilter .inStock (-1) (some 10) = false ∧
    inventoryRouteStatusFilter .lowStock (-1) (some 10) = false ∧
    inventoryRouteStatusFilter .outOfStock (-1) (some 10) = false := by
  decide

/-- C4 (amended): restricted to nonnegative quantity and minStockLevel,
both classification sites implement the single spec rule
(`quantity = 0` and `quantity <= 0` coincide there): the chart
classification equals `computeStockStatus`, the inventory filter matches
an item under a status exactly when `computeStockStatus` assigns it, and
the four boundary values hold. -/
theorem C4_stockStatusRuleUniformOnNonnegative (q m : Int) (hq : 0 ≤ q) (hm : 0 ≤ m) :
    prepareChartDataClassify (some q) (some m) = specComputeStockStatus q m ∧
    (inventoryRouteStatusFilter .inStock q (some m) = true ↔
      specComputeStockStatus q m = .inStock) ∧
    (inventoryRouteStatusFilter .lowStock q (some m) = true ↔
      specComputeStockStatus q m = .lowStock) ∧
    (inventoryRouteStatusFilter .outOfStock q (some m) = true ↔
      specComputeStockStatus q m = .outOfStock) ∧
    specComputeStockStatus 0 10 = .outOfStock ∧
    specComputeStockStatus 1 10 = .lowStock ∧
    specComputeStockStatus 10 10 = .lowStock ∧
    specComputeStockStatus 11 10 = .inStock := by
  refine ⟨?_, ?_, ?_, ?_, by decide, by decide, by decide, by decide⟩ <;>
    simp only [prepareChartDataClassify, specComputeStockStatus, inventoryRouteStatusFilter,
      Option.getD_some, Bool.and_eq_true, decide_eq_true_eq] <;>
    split_ifs <;>
    first
      | rfl
      | (simp only [reduceCtorEq, iff_false, iff_true, not_le, not_lt] <;> omega)
      | omega

/-- C4 witness: the amended theorem applied at quantity 10,
minStockLevel 10. -/
theorem C4_stockStatusRuleUniform_witness :
    prepareChartDataClassify (some 10) (some 10) = specComputeStockStatus 10 10 ∧
    (inventoryRouteStatusFilter .lowStock 10 (some 10) = true ↔
      specComputeStockStatus 10 10 = .lowStock) :=
  ⟨(C4_stockStatusRuleUniformOnNonnegative 10 10 (by decide) (by decide)).1,
   (C4_stockStatusRuleUniformOnNonnegative 10 10 (by decide) (by decide)).2.2.1⟩

/-- C1: the aggregate-consistency invariant I1 fails on the code.  With
the database-backed storage the router imports, POST /api/stock-movements
on the pair (1, 1) — aggregate 25, ledger sum 25 — appends the -5 ledger
entry (the request succeeds) but `DatabaseStorage.createStockMovement`
never applies the delta to the aggregate row: afterwards the ledger sums
to 20 while the aggregate row still holds 25. -/
theorem C1_dbRecordMovementLeavesAggregateStale :
    (dbPostStockMovement c1State 1 1 (-5) (some "sale")).1 = .created ∧
    movementSumFor (dbPostStockMovement c1State 1 1 (-5) (some "sale")).2 1 1 = 20 ∧
    (getInventoryByProductAndLocation
        (dbPostStockMovement c1State 1 1 (-5) (some "sale")).2 1 1).map
      InventoryRow.quantity = some 25 ∧
    (20 : Int) ≠ 25 := by
  decide

/-- C5 counterexample: against the map-backed MemStorage, PUT
/api/inventory/:id on the pair (product 2, location 1) at quantity 8 with
newQuantity 12 appends the +4 "Inventory adjustment" movement, but
`MemStorage.createStockMovement` re-applies the +4 delta on top of the
absolute update already performed by the route, leaving the aggregate at
16, not 12. -/
theorem C5_counterexample :
    (memPutInventory c5State 1 ⟨none, none, some 12⟩).2.stockMovements =
      c5State.stockMovements ++ [⟨2, 2, 1, 4, some "Inventory adjustment", 100⟩] ∧
    (getInventoryByProductAndLocation
        (memPutInventory c5State 1 ⟨none, none, some 12⟩).2 2 1).map
      InventoryRow.quantity = some 16 ∧
    (16 : Int) ≠ 12 := by
  decide

/-- C5 (amended): with the database-backed storage the claim holds as
stated — PUT /api/inventory/:id with newQuantity 12 on a row at
quantity 8 appends exactly one movement with delta +4 and note
"Inventory adjustment", and the aggregate row ends at 12.  (With the
map-backed MemStorage the same request leaves the aggregate at 16, see
the counterexample.) -/
theorem C5_dbSetAbsoluteQuantityFromEight (s : StoreState) (id : Nat) (inv : InventoryRow)
    (h : getInventoryItem s id = some inv) (h8 : inv.quantity = 8) :
    (dbPutInventory s id ⟨none, none, some 12⟩).2.stockMovements =
      s.stockMovements ++ [⟨s.nextStockMovementId, inv.productId, inv.locationId, 4,
        some "Inventory adjustment", s.now⟩] ∧
    (getInventoryItem (dbPutInventory s id ⟨none, none, some 12⟩).2 id).map
      InventoryRow.quantity = some 12 := by
  have hid : inv.id = id := by
    have hmem := List.find?_some (by simpa [getInventoryItem] using h)
    simpa using hmem
  unfold dbPutInventory putInventory updateInventoryItem
  rw [h]
  simp only [applyInventoryUpdate, Option.getD_none, Option.getD_some, h8]
  norm_num [getInventoryItem, dbCreateStockMovement]
  have hupd : ((fun i => i.id == id) ∘ fun r =>
      if r.id = id then
        { id := inv.id, productId := inv.productId, locationId := inv.locationId,
          quantity := 12, updatedAt := s.now }
      else r) = (fun i : InventoryRow => i.id == id) := by
    funext r
    by_cases hr : r.id = id <;> simp [hr, hid]
  rw [hupd, show s.inventory.find? (fun i => i.id == id) = some inv from by
    simpa [getInventoryItem] using h]
  exact ⟨inv, rfl, by simp [hid]⟩

/-- C5 witness: the amended theorem applied at the concrete Scenario B
state (database-backed storage). -/
theorem C5_dbSetAbsoluteQuantity_witness :
    (dbPutInventory c5State 1 ⟨none, none, some 12⟩).2.stockMovements =
      c5State.stockMovements ++ [⟨2, 2, 1, 4, some "Inventory adjustment", 100⟩] ∧
    (getInventoryItem (dbPutInventory c5State 1 ⟨none, none, some 12⟩).2 1).map
      InventoryRow.quantity = some 12 :=
  C5_dbSetAbsoluteQuantityFromEight c5State 1 ⟨1, 2, 1, 8, 0⟩ (by decide) (by decide)

/-- C10: when no aggregate row exists for the pair,
`MemStorage.createStockMovement` always stores and returns the ledger
entry; with a nonpositive quantity the inventory table is left unchanged
(no row is created), while a positive quantity creates the row. -/
theorem C10_memMovementWithoutRow (s : StoreState) (productId locationId : Nat) (q : Int)
    (note : Option String)
    (habs : getInventoryByProductAndLocation s productId locationId = none) :
    (q ≤ 0 →
      (memCreateStockMovement s productId locationId q note).2.stockMovements =
        s.stockMovements ++ [⟨s.nextStockMovementId, productId, locationId, q, note, s.now⟩] ∧
      (memCreateStockMovement s productId locationId q note).1 =
        ⟨s.nextStockMovementId, productId, locationId, q, note, s.now⟩ ∧
      (memCreateStockMovement s productId locationId q note).2.inventory = s.inventory) ∧
    (0 < q →
      (memCreateStockMovement s productId locationId q note).2.inventory =
        s.inventory ++ [⟨s.nextInventoryId, productId, locationId, q, s.now⟩]) := by
  unfold memCreateStockMovement
  dsimp only
  rw [show getInventoryByProductAndLocation
      { s with
        stockMovements := s.stockMovements ++
          [⟨s.nextStockMovementId, productId, locationId, q, note, s.now⟩]
        nextStockMovementId := s.nextStockMovementId + 1 } productId locationId = none from habs]
  constructor
  · intro hq
    rw [if_neg (by omega)]
    exact ⟨rfl, rfl, rfl⟩
  · intro hq
    rw [if_pos hq]
    rfl

/-- C10 witness: a -3 movement for the absent pair (1, 2) on the Scenario
B state stores the ledger entry and creates no aggregate row. -/
theorem C10_memMovementWithoutRow_witness :
    (memCreateStockMovement c5State 1 2 (-3) (some "adjust")).2.stockMovements =
      c5State.stockMovements ++ [⟨2, 1, 2, -3, some "adjust", 100⟩] ∧
    (memCreateStockMovement c5State 1 2 (-3) (some "adjust")).1 =
      ⟨2, 1, 2, -3, some "adjust", 100⟩ ∧
    (memCreateStockMovement c5State 1 2 (-3) (some "adjust")).2.inventory =
      c5State.inventory :=
  (C10_memMovementWithoutRow c5State 1 2 (-3) (some "adjust") (by decide)).1 (by decide)

/-- C7: POST /api/inventory (database-backed storage): when an aggregate
row already exists for the pair the request is rejected and the state —
aggregate store and ledger both — is returned unchanged; when product and
location exist and no row is present, the row is created with the request
quantity (default 0) and exactly one movement with note
"Initial inventory" carrying that quantity is appended. -/
theorem C7_createInitialInventory (s : StoreState) (productId locationId : Nat)
    (q? : Option Int) (hp : (getProduct s productId).isSome)
    (hl : (getLocation s locationId).isSome) :
    (∀ inv, getInventoryByProductAndLocation s productId locationId = some inv →
      dbPostInventory s productId locationId q? =
        (.badRequest "Inventory already exists for this product and location. Use PUT to update.",
         s)) ∧
    (getInventoryByProductAndLocation s productId locationId = none →
      (dbPostInventory s productId locationId q?).2.stockMovements =
        s.stockMovements ++ [⟨s.nextStockMovementId, productId, locationId, q?.getD 0,
          some "Initial inventory", s.now⟩] ∧
      (dbPostInventory s productId locationId q?).2.inventory =
        s.inventory ++ [⟨s.nextInventoryId, productId, locationId, q?.getD 0, s.now⟩]) := by
  obtain ⟨p, hp⟩ := Option.isSome_iff_exists.mp hp
  obtain ⟨l, hl⟩ := Option.isSome_iff_exists.mp hl
  unfold dbPostInventory postInventory
  rw [hp, hl]
  constructor
  · intro inv hinv
    rw [hinv]
  · intro hnone
    rw [hnone]
    exact ⟨rfl, rfl⟩

/-- C7 witness: the duplicate branch at the concrete state (the pair
(1, 1) already has a row), and the creation branch for the absent pair
(1, 2) is covered by instantiating the theorem at location 2 of the
two-location variant of the state. -/
theorem C7_createInitialInventory_witness :
    dbPostInventory c1State 1 1 (some 5) =
      (.badRequest "Inventory already exists for this product and location. Use PUT to update.",
       c1State) :=
  (C7_createInitialInventory c1State 1 1 (some 5) (by decide) (by decide)).1
    ⟨1, 1, 1, 25, 0⟩ (by decide)

/-- Folding quantity additions equals the initial accumulator plus the
summed quantities. -/
theorem foldl_add_quantity (l : List InventoryRow) (a : Int) :
    l.foldl (fun acc i => acc + i.quantity) a = a + (l.map InventoryRow.quantity).sum := by
  induction l generalizing a with
  | nil => simp
  | cons x t ih => simp [ih, add_assoc]

/-- Removing the unique row carrying a given id subtracts exactly its
quantity from the per-product quantity sum. -/
theorem sum_filter_delete_id (l : List InventoryRow) (id : Nat) (inv : InventoryRow)
    (hnodup : (l.map InventoryRow.id).Nodup) (hmem : inv ∈ l) (hid : inv.id = id) :
    (((l.filter (fun r => r.id != id)).filter
        (fun r => r.productId == inv.productId)).map InventoryRow.quantity).sum =
      ((l.filter (fun r => r.productId == inv.productId)).map InventoryRow.quantity).sum
        - inv.quantity := by
  induction l with
  | nil => cases hmem
  | cons x t ih =>
    simp only [List.map_cons, List.nodup_cons] at hnodup
    obtain ⟨hx, ht⟩ := hnodup
    rcases List.mem_cons.mp hmem with hx1 | hmem'
    · subst hx1
      have hclean : t.filter (fun r => r.id != id) = t := by
        apply List.filter_eq_self.mpr
        intro r hr
        simp only [bne_iff_ne, ne_eq, decide_eq_true_eq]
        intro hrid
        exact hx (by rw [hid, ← hrid]; exact List.mem_map_of_mem InventoryRow.id hr)
      simp only [List.filter_cons, hid, bne_self_eq_false, if_false, hclean,
        beq_self_eq_true, if_true, List.map_cons, List.sum_cons]
      simp
    · have hxid : (x.id != id) = true := by
        simp only [bne_iff_ne, ne_eq]
        intro hxe
        exact hx (by rw [hxe, ← hid]; exact List.mem_map_of_mem InventoryRow.id hmem')
      simp only [List.filter_cons, hxid, if_true]
      by_cases hp : x.productId = inv.productId
      · simp only [List.filter_cons, show (x.productId == inv.productId) = true from by
          simp [hp], if_true, List.map_cons, List.sum_cons, ih ht hmem']
        ring
      · simp only [List.filter_cons, show (x.productId == inv.productId) = false from by
          simp [hp], if_false]
        simp only [Bool.false_eq_true, if_false]
        exact ih ht hmem'

/-- C8: DELETE /api/inventory/:id on an existing row (quantity q) appends
exactly one movement with delta -q and note "Inventory removed" (the
prior ledger entries are retained), the pair no longer resolves to an
aggregate row afterwards (given the pair-uniqueness invariant of the
table), and the product total-stock sum of the products route drops by
exactly q. -/
theorem C8_removeInventoryRoute (s : StoreState) (id : Nat) (inv : InventoryRow)
    (h : getInventoryItem s id = some inv)
    (hnodup : (s.inventory.map InventoryRow.id).Nodup) :
    (dbDeleteInventoryRoute s id).2.stockMovements =
      s.stockMovements ++ [⟨s.nextStockMovementId, inv.productId, inv.locationId,
        -inv.quantity, some "Inventory removed", s.now⟩] ∧
    ((∀ r ∈ s.inventory, r.productId = inv.productId → r.locationId = inv.locationId →
        r.id = inv.id) →
      getInventoryByProductAndLocation (dbDeleteInventoryRoute s id).2
        inv.productId inv.locationId = none) ∧
    getProductTotalStock (dbDeleteInventoryRoute s id).2 inv.productId =
      getProductTotalStock s inv.productId - inv.quantity := by
  have hid : inv.id = id := by
    have hfound := List.find?_some (show s.inventory.find? (fun i => i.id == id) = some inv from h)
    simpa using hfound
  have hmem : inv ∈ s.inventory := List.mem_of_find?_eq_some h
  unfold dbDeleteInventoryRoute deleteInventoryRoute
  rw [h]
  dsimp only [deleteInventoryItem, dbCreateStockMovement]
  refine ⟨rfl, ?_, ?_⟩
  · intro hpair
    apply List.find?_eq_none.mpr
    intro r hr
    simp only [List.mem_filter, bne_iff_ne, ne_eq, decide_eq_true_eq] at hr
    simp only [Bool.and_eq_true, beq_iff_eq, not_and]
    intro hrp hrl
    exact absurd (hid ▸ hpair r hr.1 hrp hrl) hr.2
  · unfold getProductTotalStock
    rw [foldl_add_quantity, foldl_add_quantity, zero_add, zero_add]
    exact sum_filter_delete_id s.inventory id inv hnodup hmem hid

/-- C8 witness: deleting the (1, 1) row at quantity 25 in the concrete
state appends the -25 movement and drops the product 1 total by 25. -/
theorem C8_removeInventoryRoute_witness :
    (dbDeleteInventoryRoute c1State 1).2.stockMovements =
      c1State.stockMovements ++ [⟨2, 1, 1, -25, some "Inventory removed", 100⟩] ∧
    getProductTotalStock (dbDeleteInventoryRoute c1State 1).2 1 =
      getProductTotalStock c1State 1 - 25 :=
  ⟨(C8_removeInventoryRoute c1State 1 ⟨1, 1, 1, 25, 0⟩ (by decide) (by decide)).1,
   (C8_removeInventoryRoute c1State 1 ⟨1, 1, 1, 25, 0⟩ (by decide) (by decide)).2.2⟩

theorem ledgerExtends_refl (s : StoreState) : LedgerExtends s s := ⟨[], by simp⟩

theorem ledgerExtends_trans {a b c : StoreState} (h1 : LedgerExtends a b)
    (h2 : LedgerExtends b c) : LedgerExtends a c := by
  obtain ⟨t1, e1⟩ := h1
  obtain ⟨t2, e2⟩ := h2
  exact ⟨t1 ++ t2, by rw [e2, e1, List.append_assoc]⟩

theorem ledgerExtends_of_eq {s s2 : StoreState} (h : s2.stockMovements = s.stockMovements) :
    LedgerExtends s s2 := ⟨[], by simp [h]⟩

/-- `updateInventoryItem` never touches the ledger. -/
theorem updateInventoryItem_stockMovements (s : StoreState) (id : Nat) (u : InventoryUpdate) :
    (updateInventoryItem s id u).2.stockMovements = s.stockMovements := by
  unfold updateInventoryItem
  cases getInventoryItem s id <;> rfl

/-- The database-backed createStockMovement only appends to the ledger. -/
theorem dbCreateStockMovement_ledgerExtends (s : StoreState) (pid lid : Nat) (q : Int)
    (note : Option String) : LedgerExtends s (dbCreateStockMovement s pid lid q note).2 :=
  ⟨[⟨s.nextStockMovementId, pid, lid, q, note, s.now⟩], rfl⟩

/-- The map-backed createStockMovement only appends to the ledger (its
aggregate side effects touch the inventory table alone). -/
theorem memCreateStockMovement_ledgerExtends (s : StoreState) (pid lid : Nat) (q : Int)
    (note : Option String) : LedgerExtends s (memCreateStockMovement s pid lid q note).2 := by
  unfold memCreateStockMovement
  dsimp only
  split
  · exact ⟨[⟨s.nextStockMovementId, pid, lid, q, note, s.now⟩],
      by rw [updateInventoryItem_stockMovements]⟩
  · split
    · exact ⟨[⟨s.nextStockMovementId, pid, lid, q, note, s.now⟩], rfl⟩
    · exact ⟨[⟨s.nextStockMovementId, pid, lid, q, note, s.now⟩], rfl⟩

theorem postInventory_ledgerExtends (csm : Csm)
    (hcsm : ∀ s pid lid q note, LedgerExtends s (csm s pid lid q note).2)
    (s : StoreState) (pid lid : Nat) (q? : Option Int) :
    LedgerExtends s (postInventory csm s pid lid q?).2 := by
  unfold postInventory
  split
  · exact ledgerExtends_refl s
  · split
    · exact ledgerExtends_refl s
    · split
      · exact ledgerExtends_refl s
      · exact ledgerExtends_trans (ledgerExtends_of_eq rfl) (hcsm _ _ _ _ _)

theorem putInventory_ledgerExtends (csm : Csm)
    (hcsm : ∀ s pid lid q note, LedgerExtends s (csm s pid lid q note).2)
    (s : StoreState) (id : Nat) (u : InventoryUpdate) :
    LedgerExtends s (putInventory csm s id u).2 := by
  unfold putInventory
  split
  · exact ledgerExtends_refl s
  · dsimp only
    split
    · exact ledgerExtends_refl s
    · split
      · next s1 heq =>
        refine ledgerExtends_of_eq ?_
        have hm := updateInventoryItem_stockMovements s id u
        rw [heq] at hm
        exact hm
      · next inv s1 heq =>
        have hm := updateInventoryItem_stockMovements s id u
        rw [heq] at hm
        split
        · split
          · exact ledgerExtends_trans (ledgerExtends_of_eq hm) (hcsm _ _ _ _ _)
          · exact ledgerExtends_of_eq hm
        · exact ledgerExtends_of_eq hm

theorem deleteInventoryRoute_ledgerExtends (csm : Csm)
    (hcsm : ∀ s pid lid q note, LedgerExtends s (csm s pid lid q note).2)
    (s : StoreState) (id : Nat) :
    LedgerExtends s (deleteInventoryRoute csm s id).2 := by
  unfold deleteInventoryRoute
  split
  · exact ledgerExtends_refl s
  · exact ledgerExtends_trans (hcsm _ _ _ _ _) (ledgerExtends_of_eq rfl)

theorem postStockMovement_ledgerExtends (csm : Csm)
    (hcsm : ∀ s pid lid q note, LedgerExtends s (csm s pid lid q note).2)
    (s : StoreState) (pid lid : Nat) (q : Int) (note : Option String) :
    LedgerExtends s (postStockMovement csm s pid lid q note).2 := by
  unfold postStockMovement
  split
  · exact ledgerExtends_refl s
  · split
    · exact ledgerExtends_refl s
    · exact hcsm _ _ _ _ _

/-- The products import never touches the ledger. -/
theorem importProductRow_stockMovements (s : StoreState) (c : Nat × Nat) (r : RawProductRow) :
    (importProductRow s c r).1.stockMovements = s.stockMovements := by
  unfold importProductRow
  split
  · rfl
  · split
    · rfl
    · cases hcat : getCategoryByName s r.categoryName <;> rfl

theorem importProducts_ledgerExtends (rows : List RawProductRow) (s : StoreState)
    (c : Nat × Nat) :
    LedgerExtends s (rows.foldl (fun acc r => importProductRow acc.1 acc.2 r) (s, c)).1 := by
  induction rows generalizing s c with
  | nil => exact ledgerExtends_refl s
  | cons r t ih =>
    simp only [List.foldl_cons]
    exact ledgerExtends_trans
      (ledgerExtends_of_eq (importProductRow_stockMovements s c r))
      (ih (importProductRow s c r).1 (importProductRow s c r).2)

theorem importInventoryRow_ledgerExtends (csm : Csm)
    (hcsm : ∀ s pid lid q note, LedgerExtends s (csm s pid lid q note).2)
    (s : StoreState) (c : Nat × Nat) (r : RawInventoryRow) :
    LedgerExtends s (importInventoryRow csm s c r).1 := by
  unfold importInventoryRow
  split
  · exact ledgerExtends_refl s
  · split
    · exact ledgerExtends_refl s
    · dsimp only
      cases hloc : getLocationByName s r.locationName <;> dsimp only <;> split
      case none.h_1 | some.h_1 =>
        split
        · exact ledgerExtends_trans
            (ledgerExtends_of_eq (by rw [updateInventoryItem_stockMovements] <;> rfl))
            (hcsm _ _ _ _ _)
        · exact ledgerExtends_of_eq (by rw [updateInventoryItem_stockMovements] <;> rfl)
      case none.h_2 | some.h_2 =>
        split
        · exact ledgerExtends_trans (ledgerExtends_of_eq rfl) (hcsm _ _ _ _ _)
        · exact ledgerExtends_of_eq rfl

theorem importInventory_ledgerExtends (csm : Csm)
    (hcsm : ∀ s pid lid q note, LedgerExtends s (csm s pid lid q note).2)
    (rows : List RawInventoryRow) (s : StoreState) (c : Nat × Nat) :
    LedgerExtends s (rows.foldl (fun acc r => importInventoryRow csm acc.1 acc.2 r) (s, c)).1 := by
  induction rows generalizing s c with
  | nil => exact ledgerExtends_refl s
  | cons r t ih =>
    simp only [List.foldl_cons]
    exact ledgerExtends_trans (importInventoryRow_ledgerExtends csm hcsm s c r)
      (ih (importInventoryRow csm s c r).1 (importInventoryRow csm s c r).2)

/-- C9: the ledger is append-only across every exposed mutating API
operation, for both storage implementations: after any operation the old
ledger is an unmodified prefix of the new one — entries are only ever
appended, never updated or deleted. -/
theorem C9_ledgerAppendOnly (op : ApiOp) (s : StoreState) :
    ∃ t, (applyApiOp op s).stockMovements = s.stockMovements ++ t := by
  have hdb := dbCreateStockMovement_ledgerExtends
  have hmem := memCreateStockMovement_ledgerExtends
  cases op with
  | dbPostInv pid lid q? => exact postInventory_ledgerExtends _ hdb s pid lid q?
  | dbPutInv id u => exact putInventory_ledgerExtends _ hdb s id u
  | dbDeleteInv id => exact deleteInventoryRoute_ledgerExtends _ hdb s id
  | dbPostMovement pid lid q note => exact postStockMovement_ledgerExtends _ hdb s pid lid q note
  | importProductRows rows => exact importProducts_ledgerExtends rows s (0, 0)
  | dbImportInventoryRows rows => exact importInventory_ledgerExtends _ hdb rows s (0, 0)
  | memPostInv pid lid q? => exact postInventory_ledgerExtends _ hmem s pid lid q?
  | memPutInv id u => exact putInventory_ledgerExtends _ hmem s id u
  | memDeleteInv id => exact deleteInventoryRoute_ledgerExtends _ hmem s id
  | memPostMovement pid lid q note => exact postStockMovement_ledgerExtends _ hmem s pid lid q note
  | memImportInventoryRows rows => exact importInventory_ledgerExtends _ hmem rows s (0, 0)

/-- One products-import iteration: a schema-valid row raises
imported+errors by exactly one; an invalid row leaves both counters
untouched (it is skipped with `continue`). -/
theorem importProductRow_counts (s : StoreState) (c : Nat × Nat) (r : RawProductRow) :
    (importProductRow s c r).2.1 + (importProductRow s c r).2.2 =
      c.1 + c.2 + (if productRowValid r then 1 else 0) := by
  unfold importProductRow
  split
  · next h =>
    rw [if_neg (by simpa using h)]
    dsimp only
    omega
  · next h =>
    rw [if_pos (by simpa using h)]
    split
    · dsimp only
      omega
    · cases hcat : getCategoryByName s r.categoryName <;> dsimp only <;> omega

/-- One inventory-import iteration always raises imported+errors by
exactly one. -/
theorem importInventoryRow_counts (csm : Csm) (s : StoreState) (c : Nat × Nat)
    (r : RawInventoryRow) :
    (importInventoryRow csm s c r).2.1 + (importInventoryRow csm s c r).2.2 = c.1 + c.2 + 1 := by
  unfold importInventoryRow
  split
  · dsimp only
    omega
  · split
    · dsimp only
      omega
    · dsimp only
      cases hloc : getLocationByName s r.locationName <;> dsimp only <;>
        split <;> dsimp only <;> omega

theorem importProducts_counts_aux (rows : List RawProductRow) (s : StoreState) (c : Nat × Nat) :
    (rows.foldl (fun acc r => importProductRow acc.1 acc.2 r) (s, c)).2.1 +
      (rows.foldl (fun acc r => importProductRow acc.1 acc.2 r) (s, c)).2.2 =
      c.1 + c.2 + (rows.filter productRowValid).length := by
  induction rows generalizing s c with
  | nil => simp
  | cons r t ih =>
    simp only [List.foldl_cons, List.filter_cons]
    have hrow := importProductRow_counts s c r
    have hrec := ih (importProductRow s c r).1 (importProductRow s c r).2
    simp only [Prod.mk.eta] at hrec
    by_cases hv : productRowValid r = true
    · rw [if_pos hv] at hrow
      rw [if_pos hv, List.length_cons]
      omega
    · rw [if_neg hv] at hrow
      rw [if_neg hv]
      omega

theorem importInventory_counts_aux (csm : Csm) (rows : List RawInventoryRow)
    (s : StoreState) (c : Nat × Nat) :
    (rows.foldl (fun acc r => importInventoryRow csm acc.1 acc.2 r) (s, c)).2.1 +
      (rows.foldl (fun acc r => importInventoryRow csm acc.1 acc.2 r) (s, c)).2.2 =
      c.1 + c.2 + rows.length := by
  induction rows generalizing s c with
  | nil => simp
  | cons r t ih =>
    simp only [List.foldl_cons, List.length_cons]
    have hrow := importInventoryRow_counts csm s c r
    have hrec := ih (importInventoryRow csm s c r).1 (importInventoryRow csm s c r).2
    simp only [Prod.mk.eta] at hrec
    omega

/-- C3 (amended): the import call is a total function that always returns
the summary counts, and in the inventory branch imported+errors covers
every input row — but in the products branch the counts cover exactly the
schema-valid rows: a products row failing validation is skipped without
being counted (the claim as stated fails there, see the
counterexample). -/
theorem C3_importSummaryCounts (s : StoreState) (prows : List RawProductRow)
    (irows : List RawInventoryRow) :
    (importProducts s prows).2.1 + (importProducts s prows).2.2 =
      (prows.filter productRowValid).length ∧
    (dbImportInventory s irows).2.1 + (dbImportInventory s irows).2.2 = irows.length ∧
    (memImportInventory s irows).2.1 + (memImportInventory s irows).2.2 = irows.length := by
  refine ⟨?_, ?_, ?_⟩
  · simpa using importProducts_counts_aux prows s (0, 0)
  · simpa using importInventory_counts_aux dbCreateStockMovement irows s (0, 0)
  · simpa using importInventory_counts_aux memCreateStockMovement irows s (0, 0)

/-- C3 counterexample: a products import consisting of one row that fails
schema validation (empty name) returns imported = 0 and errors = 0 — the
failing row is not counted in the error count, and the summary does not
cover every row. -/
theorem C3_counterexample :
    productRowValid c3BadRow = false ∧
    (importProducts emptyState [c3BadRow]).2.1 = 0 ∧
    (importProducts emptyState [c3BadRow]).2.2 = 0 ∧
    [c3BadRow].length = 1 := by
  decide

theorem jsOrOne_ne_zero (m : Option Int) : jsOrOne m ≠ 0 := by
  unfold jsOrOne
  cases m with
  | none => simp
  | some v => by_cases h : v = 0 <;> simp [h]

/-- Dividing two fractions with nonzero denominators compares like the
cross products against the squared denominators. -/
theorem div_le_div_iff_cross (x y u v : Rat) (hu : u ≠ 0) (hv : v ≠ 0) :
    x / u ≤ y / v ↔ x * u * (v * v) ≤ y * v * (u * u) := by
  rw [show x / u = (x * u) / (u * u) by rw [mul_div_mul_right _ _ hu],
      show y / v = (y * v) / (v * v) by rw [mul_div_mul_right _ _ hv],
      div_le_div_iff₀ (mul_self_pos.mpr hu) (mul_self_pos.mpr hv)]

/-- The integer comparator decides exactly the comparison of the
real-valued criticality ratios the JS sort callback computes. -/
theorem ratioLe_iff (a b : InventoryWithDetails) :
    ratioLe a b = true ↔ lowStockRatio a ≤ lowStockRatio b := by
  have ha : ((jsOrOne a.minStockLevel : Int) : Rat) ≠ 0 := by
    exact_mod_cast jsOrOne_ne_zero a.minStockLevel
  have hb : ((jsOrOne b.minStockLevel : Int) : Rat) ≠ 0 := by
    exact_mod_cast jsOrOne_ne_zero b.minStockLevel
  unfold ratioLe lowStockRatio
  rw [decide_eq_true_iff, div_le_div_iff_cross _ _ _ _ ha hb]
  constructor
  · intro h
    exact_mod_cast h
  · intro h
    exact_mod_cast h

theorem ratioLeR_total (a b : InventoryWithDetails) : RatioLeR a b ∨ RatioLeR b a := by
  unfold RatioLeR
  rw [ratioLe_iff, ratioLe_iff]
  exact le_total _ _

theorem ratioLeR_trans {a b c : InventoryWithDetails} (h1 : RatioLeR a b)
    (h2 : RatioLeR b c) : RatioLeR a c := by
  unfold RatioLeR at h1 h2 ⊢
  rw [ratioLe_iff] at h1 h2 ⊢
  exact le_trans h1 h2

/-- C6 (amended): `getLowStockItems` behaves differently per storage
implementation.  MemStorage returns exactly the detail rows whose product
exists with `quantity <= minStockLevel`, ordered ascending by the
criticality ratio; the part_008 database variant does the same but with
the strict `quantity < minStockLevel` filter (omitting rows exactly at
the minimum); the storage.ts database variant filters inclusively but
returns the rows unsorted, in table order (see the counterexample). -/
theorem C6_lowStockVariants (s : StoreState) :
    ((memGetLowStockItems s).Perm
        ((getInventoryItemsWithDetails s).filter
          (fun item => match getProduct s item.productId with
            | none => false
            | some p => decide (item.quantity ≤ p.minStockLevel))) ∧
      (memGetLowStockItems s).Pairwise RatioLeR) ∧
    ((db8GetLowStockItems s).Perm
        ((getInventoryItemsWithDetails s).filter
          (fun item => decide (item.quantity < item.minStockLevel.getD 0))) ∧
      (db8GetLowStockItems s).Pairwise RatioLeR) ∧
    (∀ x, x ∈ dbGetLowStockItems s ↔
      x ∈ getInventoryItemsWithDetails s ∧ x.quantity ≤ x.minStockLevel.getD 0) := by
  haveI : IsTotal InventoryWithDetails RatioLeR := ⟨ratioLeR_total⟩
  haveI : IsTrans InventoryWithDetails RatioLeR := ⟨fun _ _ _ => ratioLeR_trans⟩
  refine ⟨⟨List.perm_insertionSort _ _, List.sorted_insertionSort _ _⟩,
          ⟨List.perm_insertionSort _ _, List.sorted_insertionSort _ _⟩, ?_⟩
  intro x
  simp [dbGetLowStockItems, List.mem_filter]

/-- C6 counterexample: a row exactly at its minimum (quantity 10,
minStockLevel 10) has status LowStock, not InStock, yet the part_008
variant returns it in no low-stock list; and the storage.ts variant
returns rows out of criticality order (ratios 1 then 0.1), so its output
is not sorted ascending. -/
theorem C6_counterexample :
    specComputeStockStatus 10 10 = .lowStock ∧
    StockStatus.lowStock ≠ .inStock ∧
    (getInventoryItemsWithDetails c2State).length = 1 ∧
    db8GetLowStockItems c2State = [] ∧
    ¬ (dbGetLowStockItems c6State).Pairwise RatioLeR := by
  decide

theorem foldl_congr_fun {α β : Type} (f g : β → α → β) (l : List α) (b : β)
    (h : ∀ b a, f b a = g b a) : l.foldl f b = l.foldl g b := by
  induction l generalizing b with
  | nil => rfl
  | cons x t ih =>
    simp only [List.foldl_cons]
    rw [h]
    exact ih _

/-- The part_008 inventory-value pass over the joined detail rows computes
the same total as the MemStorage pass over the raw inventory rows. -/
theorem db8_value_eq_mem_value (s : StoreState) :
    (getInventoryItemsWithDetails s).foldl (fun acc item =>
      match getProduct s item.productId with
      | some p => acc + p.unitCost * item.quantity
      | none => acc) 0 =
    s.inventory.foldl (fun acc item =>
      match getProduct s item.productId with
      | some p => acc + item.quantity * p.unitCost
      | none => acc) 0 := by
  unfold getInventoryItemsWithDetails
  rw [List.foldl_map]
  apply foldl_congr_fun
  intro b a
  dsimp only
  cases hgp : getProduct s a.productId <;> simp [hgp, mul_comm]

/-- On boundary-free states the strict part_008 filter and the inclusive
MemStorage filter keep exactly the same detail rows. -/
theorem lowStock_filters_eq (s : StoreState) (hb : strictBoundaryFree s = true) :
    (getInventoryItemsWithDetails s).filter
        (fun item => decide (item.quantity < item.minStockLevel.getD 0)) =
      (getInventoryItemsWithDetails s).filter
        (fun item => match getProduct s item.productId with
          | none => false
          | some p => decide (item.quantity ≤ p.minStockLevel)) := by
  apply List.filter_congr
  intro x hx
  obtain ⟨i, hi, rfl⟩ := List.mem_map.mp hx
  have hbi := (List.all_eq_true.mp hb) i hi
  dsimp only
  cases hgp : getProduct s i.productId with
  | none =>
    rw [hgp] at hbi
    simp at hbi
  | some p =>
    rw [hgp] at hbi
    simp only [decide_eq_true_eq] at hbi
    dsimp only
    simp only [Option.map_some', Option.getD_some, decide_eq_decide]
    omega

/-- C2 (amended): the database-backed (part_008) and map-backed storage
implementations are observationally equivalent only conditionally: on
states where no inventory row sits exactly at its product minimum (and
each row has a product) and every ledger entry lies within the trailing
7-day window, `getLowStockItems` returns the same rows in the same order
and `getDashboardStats` returns the same four values.  In general they
differ: the database variant counts low stock strictly
(`quantity < minStockLevel`) and counts all ledger entries, the map
variant counts inclusively (`quantity <= minStockLevel`) and counts only
the last 7 days (see the counterexample). -/
theorem C2_storageVariantsConditionallyEquivalent (s : StoreState)
    (hb : strictBoundaryFree s = true) (hr : allMovementsRecent s = true) :
    db8GetLowStockItems s = memGetLowStockItems s ∧
    db8GetDashboardStats s = memGetDashboardStats s := by
  have hfil := lowStock_filters_eq s hb
  have hlists : db8GetLowStockItems s = memGetLowStockItems s := by
    unfold db8GetLowStockItems memGetLowStockItems
    rw [hfil]
  refine ⟨hlists, ?_⟩
  unfold db8GetDashboardStats memGetDashboardStats
  dsimp only
  simp only [DashboardStats.mk.injEq]
  refine ⟨trivial, ?_, ?_, ?_⟩
  · rw [hfil]
    exact ((List.perm_insertionSort RatioLeR _).length_eq).symm
  · exact db8_value_eq_mem_value s
  · rw [List.filter_eq_self.mpr (fun m hm => (List.all_eq_true.mp hr) m hm)]

/-- C2 counterexample: on the state with one row exactly at its minimum
(10 = 10) and one week-old ledger entry, the two implementations report
different dashboard stats and different low-stock lists. -/
theorem C2_counterexample :
    (db8GetDashboardStats c2State).lowStockItems = 0 ∧
    (memGetDashboardStats c2State).lowStockItems = 1 ∧
    (db8GetDashboardStats c2State).stockMovements = 1 ∧
    (memGetDashboardStats c2State).stockMovements = 0 ∧
    db8GetDashboardStats c2State ≠ memGetDashboardStats c2State ∧
    db8GetLowStockItems c2State ≠ memGetLowStockItems c2State := by
  decide

/-- C2 witness: the amended theorem applied at the boundary-free,
all-recent concrete state. -/
theorem C2_storageVariants_witness :
    db8GetLowStockItems c2WitnessState = memGetLowStockItems c2WitnessState ∧
    db8GetDashboardStats c2WitnessState = memGetDashboardStats c2WitnessState :=
  C2_storageVariantsConditionallyEquivalent c2WitnessState (by decide) (by decide)

end Inventory
